import Mathlib

/-!
Verification development for the scholar-weave repository: a shallow
embedding of the database-abstraction and migration layer (repository
contracts, two storage-engine variants, the repository factory and the
migration routine of the Express backend), together with theorems
settling the specification claims about that layer.

Modelling conventions:
  * Machine strings are Lean `String`; dates and timestamps are logical
    `Nat` clocks (each engine state carries a monotonically increasing
    clock, and every created record stamps the current clock).
  * Generated identities are drawn from a per-engine counter and carry an
    engine-specific prefix, mirroring the disjointness of Mongo ObjectIds
    and Postgres cuids.
  * JavaScript truthiness tests on optional strings (`if (x)`, `x || y`)
    are modelled explicitly: `some ""` is falsy.
  * Fallible repository operations return `Except RepoErr`; an `.error`
    result leaves the caller with its original state, which models both a
    thrown exception before any write and a rolled-back transaction.
  * Mongo `$regex` with option `i` applied to a literal pattern is
    modelled as case-insensitive substring containment, and the Mongo
    `$text` content search is abstracted the same way; no claim depends
    on the finer points of text-index semantics.
-/

/-- JavaScript truthiness of an optional string: `none` and `some ""` are falsy. -/
def jsTruthy : Option String → Bool
  | some s => !s.isEmpty
  | none => false

/-- The JavaScript coercion `x || null` / `x || undefined` on an optional string. -/
def strOrNone : Option String → Option String
  | some s => if s.isEmpty then none else some s
  | none => none

/-- The JavaScript coercion `x || d` on an optional string with a string default. -/
def jsOrDefault (o : Option String) (d : String) : String :=
  match o with
  | some s => if s.isEmpty then d else s
  | none => d

/-- Case-insensitive substring containment: does `pat` occur inside `s`
(the model of a Mongo case-insensitive `$regex` with a literal pattern,
and of a Prisma `contains` with mode insensitive)? -/
def iSubstr (pat s : String) : Bool :=
  let p := pat.toLower
  let t := s.toLower
  if p.isEmpty then true else (t.splitOn p).length != 1

/-- Insert a string into a lexicographically sorted list. -/
def insertStr (x : String) : List String → List String
  | [] => [x]
  | y :: ys => if x ≤ y then x :: y :: ys else y :: insertStr x ys

/-- Lexicographic sort of a string list (the model of JavaScript `Array.sort()`
on string arrays, used for the tag-set comparison in the migration). -/
def sortStrs (l : List String) : List String :=
  l.foldr insertStr []

/-- Insert by a numeric key into a sorted list. -/
def insertByKey {α : Type} (key : α → Nat) (x : α) : List α → List α
  | [] => [x]
  | y :: ys => if key x ≤ key y then x :: y :: ys else y :: insertByKey key x ys

/-- Stable-ish sort by a numeric key (models an SQL order-by on an integer column). -/
def sortByKey {α : Type} (key : α → Nat) (l : List α) : List α :=
  l.foldr (insertByKey key) []

/-- The error taxonomy of the repository layer (src/index.ts repository error
classes), plus `jsError` for a plain `new Error(...)` thrown outside it. -/
inductive RepoErr where
  | entityNotFound (entity id : String)
  | duplicateEntity (entity field value : String)
  | repositoryFailure (message code : String)
  | jsError (message : String)
deriving Repr, DecidableEq

/-- Is the result a plain JavaScript error (not part of the repository taxonomy)? -/
def isJsError {α : Type} : Except RepoErr α → Bool
  | .error (.jsError _) => true
  | _ => false

/-- Did the operation succeed? -/
def isOkB {α : Type} : Except RepoErr α → Bool
  | .ok _ => true
  | .error _ => false

/-- Author record as exposed by the repository contracts. -/
structure Author where
  name : String
  affiliation : Option String
  email : Option String
deriving Repr, DecidableEq

/-- Rectangle position of a highlight on a page. -/
structure Pos where
  x : Int
  y : Int
  w : Option Int
  h : Option Int
deriving Repr, DecidableEq

/-- The three markup types of a note sub-record. -/
inductive AnnType where
  | highlight
  | comment
  | bookmark
deriving Repr, DecidableEq

/-- An embedded note sub-record (identity, type, page, position, content, color). -/
structure Annot where
  id : String
  atype : AnnType
  pageNumber : Nat
  pos : Pos
  content : String
  color : Option String
deriving Repr, DecidableEq

/-- Input shape of a note sub-record (no identity yet). -/
structure AnnIn where
  atype : AnnType
  pageNumber : Nat
  pos : Pos
  content : String
  color : Option String
deriving Repr, DecidableEq

/-- Partial patch of a note sub-record: absent fields are left unchanged. -/
structure AnnPatch where
  atype : Option AnnType
  pageNumber : Option Nat
  pos : Option Pos
  content : Option String
  color : Option String
deriving Repr, DecidableEq

/-- Forget the identity of a stored sub-record (used when the migration passes
stored sub-records back into `create`). -/
def Annot.toInput (a : Annot) : AnnIn :=
  { atype := a.atype, pageNumber := a.pageNumber, pos := a.pos
    content := a.content, color := a.color }

/-- Apply a patch to a stored sub-record: provided fields override, absent
fields are kept (the object-spread / Prisma-undefined merge). -/
def Annot.patch (a : Annot) (p : AnnPatch) : Annot :=
  { id := a.id
    atype := p.atype.getD a.atype
    pageNumber := p.pageNumber.getD a.pageNumber
    pos := p.pos.getD a.pos
    content := p.content.getD a.content
    color := match p.color with | some c => some c | none => a.color }

/-- Paper entity as exposed by the repository contracts (src/index.ts `Paper`). -/
structure Paper where
  id : String
  title : String
  authors : List Author
  abstract : String
  keywords : List String
  publicationDate : Nat
  journal : Option String
  conference : Option String
  doi : Option String
  url : Option String
  filePath : Option String
  cites : List String
  metadata : List (String × String)
  createdAt : Nat
  updatedAt : Nat
deriving Repr, DecidableEq

/-- Input for creating a paper (`CreatePaperInput`). -/
structure CreatePaperInput where
  title : String
  authors : List Author
  abstract : String
  keywords : List String
  publicationDate : Nat
  journal : Option String
  conference : Option String
  doi : Option String
  url : Option String
  filePath : Option String
  metadata : List (String × String)
deriving Repr, DecidableEq

/-- Input for updating a paper (`UpdatePaperInput`): absent fields untouched. -/
structure UpdatePaperInput where
  title : Option String
  authors : Option (List Author)
  abstract : Option String
  keywords : Option (List String)
  publicationDate : Option Nat
  journal : Option String
  conference : Option String
  doi : Option String
  url : Option String
  filePath : Option String
  metadata : Option (List (String × String))
deriving Repr, DecidableEq

/-- The all-absent update input. -/
def UpdatePaperInput.empty : UpdatePaperInput :=
  { title := none, authors := none, abstract := none, keywords := none
    publicationDate := none, journal := none, conference := none
    doi := none, url := none, filePath := none, metadata := none }

/-- Note entity as exposed by the repository contracts. -/
structure Note where
  id : String
  paperId : Option String
  content : String
  tags : List String
  annots : List Annot
  createdAt : Nat
  updatedAt : Nat
deriving Repr, DecidableEq

/-- Input for creating a note (`CreateNoteInput`). -/
structure CreateNoteInput where
  paperId : Option String
  content : String
  tags : List String
  annots : List AnnIn
deriving Repr, DecidableEq

/-- Input for updating a note (`UpdateNoteInput`): absent fields untouched. -/
structure UpdateNoteInput where
  content : Option String
  tags : Option (List String)
  annots : Option (List AnnIn)
deriving Repr, DecidableEq

/-- The all-absent note update input. -/
def UpdateNoteInput.empty : UpdateNoteInput :=
  { content := none, tags := none, annots := none }

/-- A citation document of the document engine (`CitationModel`). -/
structure MCitation where
  id : String
  sourcePaperId : String
  targetPaperId : String
  context : String
  ctype : String
  createdAt : Nat
deriving Repr, DecidableEq

/-- State of the document engine: collections are kept newest-first, matching
the `createdAt: -1` sort every listing query applies. -/
structure MongoState where
  papers : List Paper
  notes : List Note
  cites : List MCitation
  nextId : Nat
  clock : Nat
deriving Repr, DecidableEq

/-- The empty document-engine state. -/
def MongoState.empty : MongoState :=
  { papers := [], notes := [], cites := [], nextId := 0, clock := 0 }

/-- Fresh document-engine identity. -/
def mId (n : Nat) : String := "m" ++ toString n

namespace MongoPaperRepository

/-- `MongoPaperRepository.create`: a unique sparse index on `doi` rejects a
second present DOI with a Mongo duplicate-key error, which the repository
translates to `DuplicateEntityError`; otherwise the document is saved with
the input fields verbatim. -/
def create (data : CreatePaperInput) (s : MongoState) :
    Except RepoErr (Paper × MongoState) :=
  match data.doi with
  | some d =>
      if s.papers.any (fun p => p.doi == some d) then
        .error (.duplicateEntity "Paper" "doi" (jsOrDefault data.doi "unknown"))
      else
        let p : Paper :=
          { id := mId s.nextId, title := data.title, authors := data.authors
            abstract := data.abstract, keywords := data.keywords
            publicationDate := data.publicationDate, journal := data.journal
            conference := data.conference, doi := data.doi, url := data.url
            filePath := data.filePath, cites := [], metadata := data.metadata
            createdAt := s.clock, updatedAt := s.clock }
        .ok (p, { s with papers := p :: s.papers, nextId := s.nextId + 1
                         clock := s.clock + 1 })
  | none =>
      let p : Paper :=
        { id := mId s.nextId, title := data.title, authors := data.authors
          abstract := data.abstract, keywords := data.keywords
          publicationDate := data.publicationDate, journal := data.journal
          conference := data.conference, doi := data.doi, url := data.url
          filePath := data.filePath, cites := [], metadata := data.metadata
          createdAt := s.clock, updatedAt := s.clock }
      .ok (p, { s with papers := p :: s.papers, nextId := s.nextId + 1
                       clock := s.clock + 1 })

/-- `MongoPaperRepository.findById`. -/
def findById (id : String) (s : MongoState) : Option Paper :=
  s.papers.find? (fun p => p.id == id)

/-- `MongoPaperRepository.findAll` (sort createdAt desc, skip offset, limit). -/
def findAll (limit offset : Nat) (s : MongoState) : List Paper :=
  (s.papers.drop offset).take limit

/-- `MongoPaperRepository.findByDoi`. -/
def findByDoi (doi : String) (s : MongoState) : Option Paper :=
  s.papers.find? (fun p => p.doi == some doi)

/-- `MongoPaperRepository.findByKeyword`: a case-insensitive pattern match
against the elements of the `keywords` array (not against titles). -/
def findByKeyword (keyword : String) (s : MongoState) : List Paper :=
  s.papers.filter (fun p => p.keywords.any (fun k => iSubstr keyword k))

/-- `MongoPaperRepository.update`: `findByIdAndUpdate` returns `null` on a
missing id; the update object only carries the fields the code copied, with
title/abstract/keywords/date guarded by truthiness and the optional string
fields guarded by an `undefined` check. A present DOI colliding with another
document trips the unique index (duplicate-key error). -/
def update (id : String) (data : UpdatePaperInput) (s : MongoState) :
    Except RepoErr (Option Paper × MongoState) :=
  match s.papers.find? (fun p => p.id == id) with
  | none => .ok (none, s)
  | some p =>
      let newDoi := match data.doi with | some d => some d | none => p.doi
      if (match data.doi with
          | some d => s.papers.any (fun q => q.id != id && q.doi == some d)
          | none => false) then
        .error (.duplicateEntity "Paper" "doi" (jsOrDefault data.doi "unknown"))
      else
        let p1 : Paper :=
          { p with
            title := match data.title with
              | some t => if t.isEmpty then p.title else t
              | none => p.title
            abstract := match data.abstract with
              | some a => if a.isEmpty then p.abstract else a
              | none => p.abstract
            keywords := data.keywords.getD p.keywords
            publicationDate := data.publicationDate.getD p.publicationDate
            journal := match data.journal with
              | some j => some j
              | none => p.journal
            conference := match data.conference with
              | some c => some c
              | none => p.conference
            doi := newDoi
            url := match data.url with | some u => some u | none => p.url
            filePath := match data.filePath with
              | some f => some f
              | none => p.filePath
            metadata := data.metadata.getD p.metadata
            updatedAt := s.clock }
        .ok (some p1,
          { s with papers := s.papers.map (fun q => if q.id == id then p1 else q)
                   clock := s.clock + 1 })

/-- `MongoPaperRepository.delete` (`findByIdAndDelete`, boolean result). -/
def del (id : String) (s : MongoState) : Bool × MongoState :=
  if s.papers.any (fun p => p.id == id) then
    (true, { s with papers := s.papers.filter (fun p => p.id != id) })
  else
    (false, s)

/-- `MongoPaperRepository.count`. -/
def count (s : MongoState) : Nat := s.papers.length

/-- `MongoPaperRepository.addCitation`: the compound unique index on the
ordered pair (sourcePaperId, targetPaperId) rejects a duplicate with a
duplicate-key error, translated to `DuplicateEntityError`. -/
def addCitation (sourcePaperId targetPaperId : String) (s : MongoState) :
    Except RepoErr MongoState :=
  if s.cites.any (fun c =>
      c.sourcePaperId == sourcePaperId && c.targetPaperId == targetPaperId) then
    .error (.duplicateEntity "Citation" "paper pair"
      (sourcePaperId ++ "-" ++ targetPaperId))
  else
    .ok { s with
      cites := { id := mId s.nextId, sourcePaperId := sourcePaperId
                 targetPaperId := targetPaperId, context := ""
                 ctype := "DIRECT", createdAt := s.clock } :: s.cites
      nextId := s.nextId + 1
      clock := s.clock + 1 }

end MongoPaperRepository

namespace MongoNoteRepository

/-- `MongoNoteRepository.create`: `paperId` goes through `|| null`, the tag
list through `|| []`, and the input sub-records are DROPPED — the document is
always saved with an empty embedded array. -/
def create (data : CreateNoteInput) (s : MongoState) :
    Except RepoErr (Note × MongoState) :=
  let n : Note :=
    { id := mId s.nextId, paperId := strOrNone data.paperId
      content := data.content, tags := data.tags, annots := []
      createdAt := s.clock, updatedAt := s.clock }
  .ok (n, { s with notes := n :: s.notes, nextId := s.nextId + 1
                   clock := s.clock + 1 })

/-- `MongoNoteRepository.findById`. -/
def findById (id : String) (s : MongoState) : Option Note :=
  s.notes.find? (fun n => n.id == id)

/-- `MongoNoteRepository.findAll`. -/
def findAll (limit offset : Nat) (s : MongoState) : List Note :=
  (s.notes.drop offset).take limit

/-- `MongoNoteRepository.update`: content and tags are copied when defined
(`!== undefined`); the embedded sub-record array is never touched. Missing id
yields `null`. -/
def update (id : String) (data : UpdateNoteInput) (s : MongoState) :
    Except RepoErr (Option Note × MongoState) :=
  match s.notes.find? (fun n => n.id == id) with
  | none => .ok (none, s)
  | some n =>
      let n1 : Note :=
        { n with content := data.content.getD n.content
                 tags := data.tags.getD n.tags
                 updatedAt := s.clock }
      .ok (some n1,
        { s with notes := s.notes.map (fun q => if q.id == id then n1 else q)
                 clock := s.clock + 1 })

/-- `MongoNoteRepository.delete`. -/
def del (id : String) (s : MongoState) : Bool × MongoState :=
  if s.notes.any (fun n => n.id == id) then
    (true, { s with notes := s.notes.filter (fun n => n.id != id) })
  else
    (false, s)

/-- `MongoNoteRepository.count`. -/
def count (s : MongoState) : Nat := s.notes.length

/-- `MongoNoteRepository.findByPaperId`. -/
def findByPaperId (paperId : String) (s : MongoState) : List Note :=
  s.notes.filter (fun n => n.paperId == some paperId)

/-- `MongoNoteRepository.findByContent`: the `$text` search is abstracted as
case-insensitive substring containment (see the module comment). -/
def findByContent (query : String) (s : MongoState) : List Note :=
  s.notes.filter (fun n => iSubstr query n.content)

/-- `MongoNoteRepository.addAnnotation`: missing note is a distinct
entity-not-found failure; otherwise the sub-record is pushed (Mongoose
assigns it a fresh identity) and the whole updated note is returned. -/
def addAnnot (noteId : String) (a : AnnIn) (s : MongoState) :
    Except RepoErr (Note × MongoState) :=
  match s.notes.find? (fun n => n.id == noteId) with
  | none => .error (.entityNotFound "Note" noteId)
  | some n =>
      let newAnn : Annot :=
        { id := mId s.nextId, atype := a.atype, pageNumber := a.pageNumber
          pos := a.pos, content := a.content, color := a.color }
      let n1 : Note := { n with annots := n.annots ++ [newAnn]
                                updatedAt := s.clock }
      .ok (n1,
        { s with notes := s.notes.map (fun q => if q.id == noteId then n1 else q)
                 nextId := s.nextId + 1
                 clock := s.clock + 1 })

/-- `MongoNoteRepository.removeAnnotation`: missing note is entity-not-found,
but a missing sub-record id is NOT checked — the array is filtered (possibly
removing nothing) and the note saved and returned. -/
def removeAnnot (noteId annId : String) (s : MongoState) :
    Except RepoErr (Note × MongoState) :=
  match s.notes.find? (fun n => n.id == noteId) with
  | none => .error (.entityNotFound "Note" noteId)
  | some n =>
      let n1 : Note := { n with annots := n.annots.filter (fun a => a.id != annId)
                                updatedAt := s.clock }
      .ok (n1,
        { s with notes := s.notes.map (fun q => if q.id == noteId then n1 else q)
                 clock := s.clock + 1 })

/-- `MongoNoteRepository.updateAnnotation`: missing note and missing
sub-record each fail with a distinct entity-not-found error; otherwise the
patch is spread over the existing sub-record and the whole note returned. -/
def updateAnnot (noteId annId : String) (p : AnnPatch) (s : MongoState) :
    Except RepoErr (Note × MongoState) :=
  match s.notes.find? (fun n => n.id == noteId) with
  | none => .error (.entityNotFound "Note" noteId)
  | some n =>
      if n.annots.any (fun a => a.id == annId) then
        let n1 : Note :=
          { n with
            annots := n.annots.map (fun a => if a.id == annId then a.patch p else a)
            updatedAt := s.clock }
        .ok (n1,
          { s with notes := s.notes.map (fun q => if q.id == noteId then n1 else q)
                   clock := s.clock + 1 })
      else
        .error (.entityNotFound "Annotation" annId)

end MongoNoteRepository

/-- An author row of the relational engine. -/
structure PgAuthorRow where
  id : String
  name : String
  affiliation : Option String
  email : Option String
deriving Repr, DecidableEq

/-- A paper row of the relational engine. -/
structure PgPaperRow where
  id : String
  title : String
  abstract : String
  keywords : List String
  publicationDate : Nat
  journal : Option String
  conference : Option String
  doi : Option String
  url : Option String
  filePath : Option String
  metadata : List (String × String)
  createdAt : Nat
  updatedAt : Nat
deriving Repr, DecidableEq

/-- A paper-author join row with its ordering column. -/
structure PgPaperAuthorRow where
  id : String
  paperId : String
  authorId : String
  ord : Nat
deriving Repr, DecidableEq

/-- A citation row of the relational engine. -/
structure PgCitationRow where
  id : String
  sourcePaperId : String
  targetPaperId : String
  context : String
  ctype : String
  pageNumber : Option Nat
  createdAt : Nat
deriving Repr, DecidableEq

/-- A note row; `paperId` is NOT NULL with a foreign key to papers. -/
structure PgNoteRow where
  id : String
  paperId : String
  content : String
  tags : List String
  createdAt : Nat
  updatedAt : Nat
deriving Repr, DecidableEq

/-- A sub-record row with its foreign key to notes. -/
structure PgAnnRow where
  id : String
  noteId : String
  atype : AnnType
  pageNumber : Nat
  pos : Pos
  content : String
  color : Option String
deriving Repr, DecidableEq

/-- State of the relational engine. Row lists are kept newest-first, matching
the `createdAt desc` ordering of every listing query; sub-record rows are kept
in insertion order per note. -/
structure PgState where
  authors : List PgAuthorRow
  papers : List PgPaperRow
  paperAuthors : List PgPaperAuthorRow
  cites : List PgCitationRow
  notes : List PgNoteRow
  annRows : List PgAnnRow
  nextId : Nat
  clock : Nat
deriving Repr, DecidableEq

/-- The empty relational-engine state. -/
def PgState.empty : PgState :=
  { authors := [], papers := [], paperAuthors := [], cites := []
    notes := [], annRows := [], nextId := 0, clock := 0 }

/-- Fresh relational-engine identity. -/
def pId (n : Nat) : String := "p" ++ toString n

/-- One day of the millisecond clock, for the date-only truncation the
relational mapper applies (`toISOString().split` at the T). -/
def msPerDay : Nat := 86400000

/-- The author list of a paper as the relational mapper reads it back: join
rows of the paper sorted by the ordering column, resolved to author rows,
with empty-string optional fields read back as absent (`|| undefined`). -/
def pgAuthorsOf (s : PgState) (paperId : String) : List Author :=
  (sortByKey (fun pa => pa.ord)
      (s.paperAuthors.filter (fun pa => pa.paperId == paperId))).filterMap
    (fun pa =>
      (s.authors.find? (fun a => a.id == pa.authorId)).map (fun a =>
        { name := a.name, affiliation := strOrNone a.affiliation
          email := strOrNone a.email }))

/-- Outgoing citation target ids of a paper. -/
def pgCitesOf (s : PgState) (paperId : String) : List String :=
  (s.cites.filter (fun c => c.sourcePaperId == paperId)).map
    (fun c => c.targetPaperId)

/-- `PostgresPaperRepository.mapToPaper`: resolve authors and outgoing
citations, truncate the publication date to the day, and read empty optional
strings back as absent. -/
def pgMapToPaper (s : PgState) (r : PgPaperRow) : Paper :=
  { id := r.id, title := r.title, authors := pgAuthorsOf s r.id
    abstract := r.abstract, keywords := r.keywords
    publicationDate := r.publicationDate - r.publicationDate % msPerDay
    journal := strOrNone r.journal, conference := strOrNone r.conference
    doi := strOrNone r.doi, url := strOrNone r.url
    filePath := strOrNone r.filePath, cites := pgCitesOf s r.id
    metadata := r.metadata, createdAt := r.createdAt, updatedAt := r.updatedAt }

/-- The find-or-create-author plus join-insert loop of the relational paper
`create`/`update` transaction. Authors are matched on name plus
null-normalized email; the unique (paperId, authorId) constraint of the join
aborts the transaction when one author would be linked twice. `i` is the
ordering column value, `linked` the author ids already joined to this paper
in this loop. -/
def pgLinkAuthors (paperId : String) (opName : String) :
    List Author → Nat → List String → PgState → Except RepoErr PgState
  | [], _, _, s => .ok s
  | a :: rest, i, linked, s =>
      let found := s.authors.find? (fun r =>
        r.name == a.name && r.email == strOrNone a.email)
      let (aid, s1) :=
        match found with
        | some r => (r.id, s)
        | none =>
            (pId s.nextId,
             { s with authors := { id := pId s.nextId, name := a.name
                                   affiliation := a.affiliation
                                   email := a.email } :: s.authors
                      nextId := s.nextId + 1 })
      if linked.contains aid then
        .error (.jsError ("Failed to " ++ opName ++
          " paper: unique constraint violation on paper_authors"))
      else
        pgLinkAuthors paperId opName rest (i + 1) (aid :: linked)
          { s1 with
            paperAuthors := { id := pId s1.nextId, paperId := paperId
                              authorId := aid, ord := i } :: s1.paperAuthors
            nextId := s1.nextId + 1 }

namespace PostgresPaperRepository

/-- `PostgresPaperRepository.create`: a truthy input DOI already on file is
rejected up front with `DuplicateEntityError`; then, in one transaction, the
paper row is inserted (the unique index on `doi` still fires for the
empty-string DOI the truthiness pre-check let through, surfacing as a plain
wrapped error), the author loop runs, and the stored paper is read back. An
error leaves the caller with its pre-call state (rollback). -/
def create (data : CreatePaperInput) (s : PgState) :
    Except RepoErr (Paper × PgState) :=
  if jsTruthy data.doi && s.papers.any (fun r => r.doi == data.doi) then
    .error (.duplicateEntity "Paper" "doi" (data.doi.getD ""))
  else if data.doi.isSome && s.papers.any (fun r => r.doi == data.doi) then
    .error (.jsError "Failed to create paper: unique constraint violation on doi")
  else
    let rid := pId s.nextId
    let row : PgPaperRow :=
      { id := rid, title := data.title, abstract := data.abstract
        keywords := data.keywords, publicationDate := data.publicationDate
        journal := data.journal, conference := data.conference
        doi := data.doi, url := data.url, filePath := data.filePath
        metadata := data.metadata, createdAt := s.clock, updatedAt := s.clock }
    let s1 : PgState :=
      { s with papers := row :: s.papers, nextId := s.nextId + 1
               clock := s.clock + 1 }
    match pgLinkAuthors rid "create" data.authors 0 [] s1 with
    | .error e => .error e
    | .ok s2 =>
        match s2.papers.find? (fun r => r.id == rid) with
        | some r => .ok (pgMapToPaper s2 r, s2)
        | none => .error (.jsError "Failed to create paper: readback missing")

/-- `PostgresPaperRepository.findById`. -/
def findById (id : String) (s : PgState) : Option Paper :=
  (s.papers.find? (fun r => r.id == id)).map (pgMapToPaper s)

/-- `PostgresPaperRepository.findAll` (createdAt desc, take/skip). -/
def findAll (limit offset : Nat) (s : PgState) : List Paper :=
  ((s.papers.drop offset).take limit).map (pgMapToPaper s)

/-- `PostgresPaperRepository.findByDoi` (unique lookup on the doi column). -/
def findByDoi (doi : String) (s : PgState) : Option Paper :=
  (s.papers.find? (fun r => r.doi == some doi)).map (pgMapToPaper s)

/-- `PostgresPaperRepository.findByKeyword`: exact membership in the
`keywords` array column (not a title search). -/
def findByKeyword (keyword : String) (s : PgState) : List Paper :=
  (s.papers.filter (fun r => r.keywords.contains keyword)).map (pgMapToPaper s)

/-- `PostgresPaperRepository.update`: a MISSING id raises
`EntityNotFoundError` (it does not return an absent result); a truthy changed
DOI colliding with another row raises `DuplicateEntityError`; otherwise the
row is merged (absent input fields untouched), the author links are rewritten
when authors are supplied, and the stored paper is read back. -/
def update (id : String) (data : UpdatePaperInput) (s : PgState) :
    Except RepoErr (Option Paper × PgState) :=
  match s.papers.find? (fun r => r.id == id) with
  | none => .error (.entityNotFound "Paper" id)
  | some row =>
      if jsTruthy data.doi && data.doi != row.doi &&
          s.papers.any (fun r => r.doi == data.doi) then
        .error (.duplicateEntity "Paper" "doi" (data.doi.getD ""))
      else
        let row1 : PgPaperRow :=
          { row with
            title := data.title.getD row.title
            abstract := data.abstract.getD row.abstract
            keywords := data.keywords.getD row.keywords
            publicationDate := data.publicationDate.getD row.publicationDate
            journal := match data.journal with
              | some j => some j
              | none => row.journal
            conference := match data.conference with
              | some c => some c
              | none => row.conference
            doi := match data.doi with | some d => some d | none => row.doi
            url := match data.url with | some u => some u | none => row.url
            filePath := match data.filePath with
              | some f => some f
              | none => row.filePath
            metadata := data.metadata.getD row.metadata
            updatedAt := s.clock }
        if (match data.doi with
            | some d => s.papers.any (fun r => r.id != id && r.doi == some d)
            | none => false) then
          .error (.jsError "Failed to update paper: unique constraint violation on doi")
        else
          let s1 : PgState :=
            { s with
              papers := s.papers.map (fun r => if r.id == id then row1 else r)
              clock := s.clock + 1 }
          let afterAuthors : Except RepoErr PgState :=
            match data.authors with
            | none => .ok s1
            | some as =>
                let s2 : PgState :=
                  { s1 with paperAuthors :=
                      s1.paperAuthors.filter (fun pa => pa.paperId != id) }
                pgLinkAuthors id "update" as 0 [] s2
          match afterAuthors with
          | .error e => .error e
          | .ok s3 =>
              match s3.papers.find? (fun r => r.id == id) with
              | some r => .ok (some (pgMapToPaper s3 r), s3)
              | none => .error (.jsError "Failed to update paper: readback missing")

/-- `PostgresPaperRepository.delete`: missing row yields `false`; deletion
cascades to join rows, citations in both directions, and the notes (with
their sub-records) referencing the paper. -/
def del (id : String) (s : PgState) : Bool × PgState :=
  if s.papers.any (fun r => r.id == id) then
    let deadNotes := (s.notes.filter (fun n => n.paperId == id)).map
      (fun n => n.id)
    (true,
      { s with
        papers := s.papers.filter (fun r => r.id != id)
        paperAuthors := s.paperAuthors.filter (fun pa => pa.paperId != id)
        cites := s.cites.filter (fun c =>
          c.sourcePaperId != id && c.targetPaperId != id)
        notes := s.notes.filter (fun n => n.paperId != id)
        annRows := s.annRows.filter (fun a => !(deadNotes.contains a.noteId)) })
  else
    (false, s)

/-- `PostgresPaperRepository.count`. -/
def count (s : PgState) : Nat := s.papers.length

/-- `PostgresPaperRepository.addCitation`: every failure — missing endpoint
papers (foreign keys) or a duplicate ordered pair (unique index) — is wrapped
into a plain error; the repository never raises `DuplicateEntityError` here. -/
def addCitation (sourcePaperId targetPaperId : String) (s : PgState) :
    Except RepoErr PgState :=
  if !(s.papers.any (fun r => r.id == sourcePaperId)) ||
     !(s.papers.any (fun r => r.id == targetPaperId)) then
    .error (.jsError "Failed to add citation: foreign key constraint violation")
  else if s.cites.any (fun c =>
      c.sourcePaperId == sourcePaperId && c.targetPaperId == targetPaperId) then
    .error (.jsError "Failed to add citation: unique constraint violation")
  else
    .ok { s with
      cites := { id := pId s.nextId, sourcePaperId := sourcePaperId
                 targetPaperId := targetPaperId, context := ""
                 ctype := "DIRECT", pageNumber := none
                 createdAt := s.clock } :: s.cites
      nextId := s.nextId + 1
      clock := s.clock + 1 }

end PostgresPaperRepository

/-- `PostgresNoteRepository.mapToNote`: the note row with its sub-record rows
(insertion order). -/
def pgMapToNote (s : PgState) (r : PgNoteRow) : Note :=
  { id := r.id, paperId := some r.paperId, content := r.content
    tags := r.tags
    annots := ((s.annRows.filter (fun a => a.noteId == r.id)).map (fun a =>
      { id := a.id, atype := a.atype, pageNumber := a.pageNumber
        pos := a.pos, content := a.content, color := a.color })).reverse
    createdAt := r.createdAt, updatedAt := r.updatedAt }

/-- Insert fresh sub-record rows for a note (they are stored newest-first,
so the mapper reverses). -/
def pgInsertAnns (noteId : String) : List AnnIn → PgState → PgState
  | [], s => s
  | a :: rest, s =>
      pgInsertAnns noteId rest
        { s with
          annRows := { id := pId s.nextId, noteId := noteId, atype := a.atype
                       pageNumber := a.pageNumber, pos := a.pos
                       content := a.content, color := a.color } :: s.annRows
          nextId := s.nextId + 1 }

namespace PostgresNoteRepository

/-- `PostgresNoteRepository.create`: `paperId` goes through `|| undefined`,
but the column is NOT NULL with a foreign key to papers, so an absent or
dangling paper reference makes the insert fail with a wrapped
`RepositoryError`; otherwise the note row and its sub-record rows are
inserted and the stored note returned. -/
def create (data : CreateNoteInput) (s : PgState) :
    Except RepoErr (Note × PgState) :=
  match strOrNone data.paperId with
  | none =>
      .error (.repositoryFailure
        "Failed to create note: null constraint violation on paperId"
        "CREATE_ERROR")
  | some pid =>
      if !(s.papers.any (fun r => r.id == pid)) then
        .error (.repositoryFailure
          "Failed to create note: foreign key constraint violation on paperId"
          "CREATE_ERROR")
      else
        let rid := pId s.nextId
        let row : PgNoteRow :=
          { id := rid, paperId := pid, content := data.content
            tags := data.tags, createdAt := s.clock, updatedAt := s.clock }
        let s1 : PgState :=
          { s with notes := row :: s.notes, nextId := s.nextId + 1
                   clock := s.clock + 1 }
        let s2 := pgInsertAnns rid data.annots s1
        .ok (pgMapToNote s2 row, s2)

/-- `PostgresNoteRepository.findById`. -/
def findById (id : String) (s : PgState) : Option Note :=
  (s.notes.find? (fun r => r.id == id)).map (pgMapToNote s)

/-- `PostgresNoteRepository.findAll`. -/
def findAll (limit offset : Nat) (s : PgState) : List Note :=
  ((s.notes.drop offset).take limit).map (pgMapToNote s)

/-- `PostgresNoteRepository.update`: a missing id is caught and returned as
an absent result; otherwise content and tags are merged (absent input fields
untouched) while the sub-record rows are ALWAYS rewritten: `deleteMany` of
every existing row, then inserts from the input list or, when the input left
them unspecified, from the empty list. -/
def update (id : String) (data : UpdateNoteInput) (s : PgState) :
    Except RepoErr (Option Note × PgState) :=
  match s.notes.find? (fun r => r.id == id) with
  | none => .ok (none, s)
  | some row =>
      let row1 : PgNoteRow :=
        { row with content := data.content.getD row.content
                   tags := data.tags.getD row.tags
                   updatedAt := s.clock }
      let s1 : PgState :=
        { s with
          notes := s.notes.map (fun r => if r.id == id then row1 else r)
          annRows := s.annRows.filter (fun a => a.noteId != id)
          clock := s.clock + 1 }
      let s2 := pgInsertAnns id (data.annots.getD []) s1
      .ok (some (pgMapToNote s2 row1), s2)

/-- `PostgresNoteRepository.delete`. -/
def del (id : String) (s : PgState) : Bool × PgState :=
  if s.notes.any (fun r => r.id == id) then
    (true, { s with notes := s.notes.filter (fun r => r.id != id)
                    annRows := s.annRows.filter (fun a => a.noteId != id) })
  else
    (false, s)

/-- `PostgresNoteRepository.count`. -/
def count (s : PgState) : Nat := s.notes.length

/-- `PostgresNoteRepository.findByPaperId`. -/
def findByPaperId (paperId : String) (s : PgState) : List Note :=
  (s.notes.filter (fun r => r.paperId == paperId)).map (pgMapToNote s)

/-- `PostgresNoteRepository.findByContent` (contains, mode insensitive). -/
def findByContent (query : String) (s : PgState) : List Note :=
  (s.notes.filter (fun r => iSubstr query r.content)).map (pgMapToNote s)

/-- `PostgresNoteRepository.addAnnotation`: the nested update fails with
`EntityNotFoundError` when the note row is missing; otherwise a fresh
sub-record row is created and the whole note returned. -/
def addAnnot (noteId : String) (a : AnnIn) (s : PgState) :
    Except RepoErr (Note × PgState) :=
  match s.notes.find? (fun r => r.id == noteId) with
  | none => .error (.entityNotFound "Note" noteId)
  | some row =>
      let s1 := pgInsertAnns noteId [a] s
      .ok (pgMapToNote s1 row, s1)

/-- `PostgresNoteRepository.removeAnnotation`: a missing note surfaces as the
update-not-found error the code translates to `EntityNotFoundError`, but a
missing sub-record makes the NESTED delete fail with a different storage
error whose message the code does not recognize, so it is wrapped as a
generic `RepositoryError` instead of an entity-not-found signal. -/
def removeAnnot (noteId annId : String) (s : PgState) :
    Except RepoErr (Note × PgState) :=
  match s.notes.find? (fun r => r.id == noteId) with
  | none => .error (.entityNotFound "Note" noteId)
  | some row =>
      if s.annRows.any (fun a => a.id == annId && a.noteId == noteId) then
        let s1 : PgState :=
          { s with annRows := s.annRows.filter (fun a => a.id != annId) }
        .ok (pgMapToNote s1 row, s1)
      else
        .error (.repositoryFailure
          "Failed to remove annotation: record to delete does not exist"
          "UPDATE_ERROR")

/-- `PostgresNoteRepository.updateAnnotation`: the sub-record is looked up
GLOBALLY by its id (no check that it belongs to the named note) and patched;
a missing sub-record or a missing note each raise `EntityNotFoundError`. When
the sub-record lives on a different existing note, the patch is applied there
and the named note is returned unchanged — no failure. -/
def updateAnnot (noteId annId : String) (p : AnnPatch) (s : PgState) :
    Except RepoErr (Note × PgState) :=
  match s.annRows.find? (fun a => a.id == annId) with
  | none => .error (.entityNotFound "Annotation" annId)
  | some _ =>
      let s1 : PgState :=
        { s with
          annRows := s.annRows.map (fun a =>
            if a.id == annId then
              { a with atype := p.atype.getD a.atype
                       pageNumber := p.pageNumber.getD a.pageNumber
                       pos := p.pos.getD a.pos
                       content := p.content.getD a.content
                       color := match p.color with
                         | some c => some c
                         | none => a.color }
            else a) }
      match s1.notes.find? (fun r => r.id == noteId) with
      | none => .error (.entityNotFound "Note" noteId)
      | some row => .ok (pgMapToNote s1 row, s1)

end PostgresNoteRepository

/-- Which concrete paper-repository implementation the factory holds. -/
inductive PaperImpl where
  | postgresPapers
  | mongoPapers
deriving Repr, DecidableEq

/-- Which concrete note-repository implementation the factory holds. -/
inductive NoteImpl where
  | postgresNotes
  | mongoNotes
deriving Repr, DecidableEq

/-- The `RepositoryFactory` singleton state: lazily assigned repository
fields (all start unassigned) and the active engine selector string (the
code stores the raw environment value after a cast). -/
structure Factory where
  paperRepo : Option PaperImpl
  noteRepo : Option NoteImpl
  citationRepo : Option Unit
  databaseType : String
deriving Repr, DecidableEq

/-- The freshly constructed factory (private constructor): nothing assigned,
selector defaulted to hybrid. -/
def Factory.start : Factory :=
  { paperRepo := none, noteRepo := none, citationRepo := none
    databaseType := "hybrid" }

/-- `RepositoryFactory.initialize`: read the engine selector from the
environment (`|| "hybrid"`), store it, and assign the paper and note
repositories of the selected mode — postgres pair, mongo pair, or the hybrid
split. NO branch ever assigns the citation-repository field. -/
def Factory.init (envType : Option String) (f : Factory) : Factory :=
  let dbType := jsOrDefault envType "hybrid"
  if dbType == "postgres" then
    { f with databaseType := dbType
             paperRepo := some .postgresPapers
             noteRepo := some .postgresNotes }
  else if dbType == "mongodb" then
    { f with databaseType := dbType
             paperRepo := some .mongoPapers
             noteRepo := some .mongoNotes }
  else
    { f with databaseType := dbType
             paperRepo := some .postgresPapers
             noteRepo := some .mongoNotes }

/-- `RepositoryFactory.cleanup`: releases connections; the repository fields
are left as they are. -/
def Factory.cleanup (f : Factory) : Factory := f

/-- `RepositoryFactory.getCitationRepository`: an unassigned field throws
the not-implemented error. -/
def Factory.getCitationRepository (f : Factory) : Except String Unit :=
  match f.citationRepo with
  | none => .error "Citation repository not implemented"
  | some u => .ok u

/-- The externally triggerable factory lifecycle operations. -/
inductive FactoryOp where
  | init (envType : Option String)
  | cleanup
deriving Repr, DecidableEq

/-- Run one factory lifecycle operation. -/
def Factory.step (f : Factory) : FactoryOp → Factory
  | .init e => f.init e
  | .cleanup => f.cleanup

/-- The two engines the migration endpoint accepts. -/
inductive Db where
  | mongodb
  | postgres
deriving Repr, DecidableEq

/-- The combined system state the migration endpoint acts on: both engines. -/
structure Sys where
  mongo : MongoState
  pg : PgState
deriving Repr, DecidableEq

/-- The engine component an engine selector addresses, for stating frame
properties (source preservation) uniformly. -/
def sameEngine (d : Db) (s t : Sys) : Prop :=
  match d with
  | .mongodb => s.mongo = t.mongo
  | .postgres => s.pg = t.pg

/-- `findAll(10000)` over the papers of the selected engine. -/
def dbPapersAll (d : Db) (s : Sys) : List Paper :=
  match d with
  | .mongodb => MongoPaperRepository.findAll 10000 0 s.mongo
  | .postgres => PostgresPaperRepository.findAll 10000 0 s.pg

/-- `findAll(10000)` over the notes of the selected engine. -/
def dbNotesAll (d : Db) (s : Sys) : List Note :=
  match d with
  | .mongodb => MongoNoteRepository.findAll 10000 0 s.mongo
  | .postgres => PostgresNoteRepository.findAll 10000 0 s.pg

/-- Dispatch `findByDoi` to the selected engine. -/
def dbFindByDoi (d : Db) (doi : String) (s : Sys) : Option Paper :=
  match d with
  | .mongodb => MongoPaperRepository.findByDoi doi s.mongo
  | .postgres => PostgresPaperRepository.findByDoi doi s.pg

/-- Dispatch `findByKeyword` to the selected engine. -/
def dbFindByKeyword (d : Db) (kw : String) (s : Sys) : List Paper :=
  match d with
  | .mongodb => MongoPaperRepository.findByKeyword kw s.mongo
  | .postgres => PostgresPaperRepository.findByKeyword kw s.pg

/-- Dispatch paper `create` to the selected engine. -/
def dbPaperCreate (d : Db) (i : CreatePaperInput) (s : Sys) :
    Except RepoErr Sys :=
  match d with
  | .mongodb =>
      match MongoPaperRepository.create i s.mongo with
      | .ok (_, m) => .ok { s with mongo := m }
      | .error e => .error e
  | .postgres =>
      match PostgresPaperRepository.create i s.pg with
      | .ok (_, p) => .ok { s with pg := p }
      | .error e => .error e

/-- Dispatch note `findByPaperId` to the selected engine. -/
def dbNoteFindByPaperId (d : Db) (pid : String) (s : Sys) : List Note :=
  match d with
  | .mongodb => MongoNoteRepository.findByPaperId pid s.mongo
  | .postgres => PostgresNoteRepository.findByPaperId pid s.pg

/-- Dispatch note `findByContent` to the selected engine. -/
def dbNoteFindByContent (d : Db) (q : String) (s : Sys) : List Note :=
  match d with
  | .mongodb => MongoNoteRepository.findByContent q s.mongo
  | .postgres => PostgresNoteRepository.findByContent q s.pg

/-- Dispatch note `create` to the selected engine. -/
def dbNoteCreate (d : Db) (i : CreateNoteInput) (s : Sys) :
    Except RepoErr Sys :=
  match d with
  | .mongodb =>
      match MongoNoteRepository.create i s.mongo with
      | .ok (_, m) => .ok { s with mongo := m }
      | .error e => .error e
  | .postgres =>
      match PostgresNoteRepository.create i s.pg with
      | .ok (_, p) => .ok { s with pg := p }
      | .error e => .error e

/-- Dispatch paper `delete` to the selected engine (individual failures in
the deletion loop of the migration are logged and swallowed). -/
def dbPaperDelete (d : Db) (id : String) (s : Sys) : Sys :=
  match d with
  | .mongodb => { s with mongo := (MongoPaperRepository.del id s.mongo).2 }
  | .postgres => { s with pg := (PostgresPaperRepository.del id s.pg).2 }

/-- Dispatch note `delete` to the selected engine. -/
def dbNoteDelete (d : Db) (id : String) (s : Sys) : Sys :=
  match d with
  | .mongodb => { s with mongo := (MongoNoteRepository.del id s.mongo).2 }
  | .postgres => { s with pg := (PostgresNoteRepository.del id s.pg).2 }

/-- The create input the migration endpoint builds for a source paper. The
field list is copied from the handler: `conference` is NOT among the copied
fields, so the target record is created without it. -/
def migPaperInput (p : Paper) : CreatePaperInput :=
  { title := p.title, authors := p.authors, abstract := p.abstract
    keywords := p.keywords, publicationDate := p.publicationDate
    journal := p.journal, conference := none, doi := p.doi, url := p.url
    filePath := p.filePath, metadata := p.metadata }

/-- The create input the migration endpoint builds for a source note. -/
def migNoteInput (n : Note) : CreateNoteInput :=
  { paperId := n.paperId, content := n.content, tags := n.tags
    annots := n.annots.map Annot.toInput }

/-- The duplicate check of the migration paper loop: a truthy DOI is looked
up with `findByDoi`; on no match (and a truthy title) the candidates come
from `findByKeyword(title)` filtered by case-insensitive title equality. -/
def migFindExistingPaper (toDb : Db) (p : Paper) (s : Sys) : Option Paper :=
  let byDoi := if jsTruthy p.doi then dbFindByDoi toDb (p.doi.getD "") s else none
  match byDoi with
  | some q => some q
  | none =>
      if !p.title.isEmpty then
        (dbFindByKeyword toDb p.title s).find? (fun q =>
          q.title.toLower == p.title.toLower)
      else none

/-- One iteration of the migration paper loop: skip a detected duplicate,
otherwise create in the target, swallowing (only logging) a create failure.
The accumulator carries (migrated, skipped, state). -/
def migPaperStep (toDb : Db) (acc : Nat × Nat × Sys) (p : Paper) :
    Nat × Nat × Sys :=
  let (mig, skip, s) := acc
  match migFindExistingPaper toDb p s with
  | some _ => (mig, skip + 1, s)
  | none =>
      match dbPaperCreate toDb (migPaperInput p) s with
      | .ok s1 => (mig + 1, skip, s1)
      | .error _ => (mig, skip, s)

/-- The duplicate check of the migration note loop: candidates by owning
paper id (truthy) or by a content-prefix search, then an exact content and
sorted-tags comparison. -/
def migFindSimilarNote (toDb : Db) (n : Note) (s : Sys) : Option Note :=
  let candidates :=
    if jsTruthy n.paperId then
      dbNoteFindByPaperId toDb (n.paperId.getD "") s
    else
      dbNoteFindByContent toDb (n.content.take 100) s
  candidates.find? (fun ex =>
    ex.content == n.content && sortStrs ex.tags == sortStrs n.tags)

/-- One iteration of the migration note loop. -/
def migNoteStep (toDb : Db) (acc : Nat × Nat × Sys) (n : Note) :
    Nat × Nat × Sys :=
  let (mig, skip, s) := acc
  match migFindSimilarNote toDb n s with
  | some _ => (mig, skip + 1, s)
  | none =>
      match dbNoteCreate toDb (migNoteInput n) s with
      | .ok s1 => (mig + 1, skip, s1)
      | .error _ => (mig, skip, s)

/-- The result object of the migration endpoint (counts per collection, the
reported moved/complete flag, and whether the source-deletion branch ran). -/
structure MigrationResult where
  srcPapers : Nat
  tgtPapers : Nat
  migratedPapers : Nat
  skippedPapers : Nat
  srcNotes : Nat
  tgtNotes : Nat
  migratedNotes : Nat
  skippedNotes : Nat
  complete : Bool
  deleted : Bool
deriving Repr, DecidableEq

/-- The migration endpoint (`POST /api/database/migrate`) after its input
validation: read every source paper and note, run the two dedup-and-copy
loops against the target, verify that the processed counts reconcile with
the source counts, and only then delete the source records (individually,
swallowing per-record failures). The reported `moved`/complete flag and the
deletion decision use the same reconciliation condition. -/
def migrate (fromDb toDb : Db) (s0 : Sys) : MigrationResult × Sys :=
  let sourcePapers := dbPapersAll fromDb s0
  let sourceNotes := dbNotesAll fromDb s0
  let pAcc := sourcePapers.foldl (migPaperStep toDb) (0, 0, s0)
  let nAcc := sourceNotes.foldl (migNoteStep toDb) (0, 0, pAcc.2.2)
  let s2 := nAcc.2.2
  let tgtP := (dbPapersAll toDb s2).length
  let tgtN := (dbNotesAll toDb s2).length
  let complete :=
    pAcc.1 + pAcc.2.1 == sourcePapers.length &&
    nAcc.1 + nAcc.2.1 == sourceNotes.length
  let s3 :=
    if complete then
      let sa := sourcePapers.foldl (fun s p => dbPaperDelete fromDb p.id s) s2
      sourceNotes.foldl (fun s n => dbNoteDelete fromDb n.id s) sa
    else s2
  ({ srcPapers := sourcePapers.length, tgtPapers := tgtP
     migratedPapers := pAcc.1, skippedPapers := pAcc.2.1
     srcNotes := sourceNotes.length, tgtNotes := tgtN
     migratedNotes := nAcc.1, skippedNotes := nAcc.2.1
     complete := complete, deleted := complete }, s3)

/-- A minimal paper-create input with the given title and no optional data. -/
def mkPlainPaper (t : String) : CreatePaperInput :=
  { title := t, authors := [], abstract := "a", keywords := []
    publicationDate := 0, journal := none, conference := none, doi := none
    url := none, filePath := none, metadata := [] }

/-- C2 fixture: a document-engine store holding one paper with a conference. -/
def c2Mongo : MongoState :=
  match MongoPaperRepository.create
      { mkPlainPaper "ConfPaper" with conference := some "ICML 2023" }
      MongoState.empty with
  | .ok (_, m) => m
  | .error _ => MongoState.empty

/-- C2 fixture: that store as the source, with an empty relational target. -/
def c2Sys : Sys := { mongo := c2Mongo, pg := PgState.empty }

/-- C2: the claim fails on the code — the create call of the migration endpoint
does not copy the `conference` field, so a source paper carrying a
conference is migrated into a target record without one. Here the single
source paper has conference "ICML 2023", the migration reports it migrated,
and the created relational row stores no conference. -/
theorem migration_conference_dropped :
    (dbPapersAll .mongodb c2Sys).map (fun p => p.conference) = [some "ICML 2023"] ∧
    (migrate .mongodb .postgres c2Sys).1.migratedPapers = 1 ∧
    ((migrate .mongodb .postgres c2Sys).2.pg.papers.map (fun r => r.conference))
      = [none] :=
  ⟨rfl, rfl, rfl⟩

/-- C3 fixture: relational source holding one DOI-less paper titled Alpha. -/
def c3Pg : PgState :=
  match PostgresPaperRepository.create (mkPlainPaper "Alpha") PgState.empty with
  | .ok (_, p) => p
  | .error _ => PgState.empty

/-- C3 fixture: document target already holding a paper titled Alpha. -/
def c3Mongo : MongoState :=
  match MongoPaperRepository.create (mkPlainPaper "Alpha") MongoState.empty with
  | .ok (_, m) => m
  | .error _ => MongoState.empty

/-- C3 fixture: the combined state for a postgres-to-mongo migration. -/
def c3Sys : Sys := { mongo := c3Mongo, pg := c3Pg }

/-- C3: the claim fails on the code — the target already holds a paper whose
title equals the source title (exactly, so in particular case-insensitively),
yet the migration does not skip the source paper: the title lookup goes
through `findByKeyword`, which searches the keywords array, finds no
candidate here (keywords are empty), and the paper is migrated, leaving the
target with two papers titled Alpha. -/
theorem migration_title_duplicate_missed :
    (dbPapersAll .mongodb c3Sys).map (fun p => p.title) = ["Alpha"] ∧
    (dbPapersAll .postgres c3Sys).map (fun p => (p.title, p.doi))
      = [("Alpha", none)] ∧
    (migrate .postgres .mongodb c3Sys).1.skippedPapers = 0 ∧
    (migrate .postgres .mongodb c3Sys).1.migratedPapers = 1 ∧
    (migrate .postgres .mongodb c3Sys).2.mongo.papers.map (fun p => p.title)
      = ["Alpha", "Alpha"] :=
  ⟨rfl, rfl, rfl, rfl, rfl⟩

/-- C4 fixture: document source with one DOI-less paper and one standalone
note (the note can never be created in the relational target, whose note
rows require an owning paper). -/
def c4Mongo : MongoState :=
  match MongoPaperRepository.create (mkPlainPaper "Alpha") MongoState.empty with
  | .ok (_, m) =>
      (match MongoNoteRepository.create
          { paperId := none, content := "c", tags := [], annots := [] } m with
       | .ok (_, m2) => m2
       | .error _ => m)
  | .error _ => MongoState.empty

/-- C4 fixture: combined state before the first migration run. -/
def c4Sys : Sys := { mongo := c4Mongo, pg := PgState.empty }

/-- C4 fixture: the state after the first mongo-to-postgres run. -/
def c4SysAfter1 : Sys := (migrate .mongodb .postgres c4Sys).2

/-- C4: the claim fails on the code — after a first (partial) run the second
run of the same migration reports one NEWLY MIGRATED paper (not zero) and
the target paper count grows from 1 to 2 between the end of the first run
and the end of the second: the migrated DOI-less paper is not recognized as
a duplicate (its title is not among the keywords of the target copy), so it is
copied again. -/
theorem migration_not_idempotent :
    (migrate .mongodb .postgres c4Sys).1.complete = false ∧
    c4SysAfter1.pg.papers.length = 1 ∧
    (migrate .mongodb .postgres c4SysAfter1).1.migratedPapers = 1 ∧
    (migrate .mongodb .postgres c4SysAfter1).2.pg.papers.length = 2 :=
  ⟨rfl, rfl, rfl, rfl⟩

/-- C5: the relational paper repository breaks the contract — `update` on an
id not present in the store raises `EntityNotFoundError` instead of
returning an absent result, while the document paper repository and both
note repositories return an absent result and leave the store untouched
(count unchanged), as the interface, the TDD test and the spec require. -/
theorem update_missing_id_behavior :
    PostgresPaperRepository.update "nonexistent-id" UpdatePaperInput.empty
        PgState.empty
      = .error (.entityNotFound "Paper" "nonexistent-id") ∧
    MongoPaperRepository.update "nonexistent-id" UpdatePaperInput.empty
        MongoState.empty
      = .ok (none, MongoState.empty) ∧
    PostgresNoteRepository.update "nonexistent-id" UpdateNoteInput.empty
        PgState.empty
      = .ok (none, PgState.empty) ∧
    MongoNoteRepository.update "nonexistent-id" UpdateNoteInput.empty
        MongoState.empty
      = .ok (none, MongoState.empty) :=
  ⟨rfl, rfl, rfl, rfl⟩

/-- The factory initialize step never writes the citation-repository field. -/
theorem factory_init_citation_field (e : Option String) (f : Factory) :
    (f.init e).citationRepo = f.citationRepo := by
  unfold Factory.init
  dsimp only
  split
  · rfl
  · split <;> rfl

/-- C10: no matter which sequence of initialize and cleanup calls (with any
engine selector each time) is applied to the freshly constructed factory,
`getCitationRepository` fails with the not-implemented error, because no
lifecycle operation ever assigns the citation-repository field. -/
theorem citation_repo_never_available (ops : List FactoryOp) :
    (ops.foldl Factory.step Factory.start).getCitationRepository
      = .error "Citation repository not implemented" := by
  have key : ∀ (l : List FactoryOp) (f : Factory), f.citationRepo = none →
      (l.foldl Factory.step f).citationRepo = none := by
    intro l
    induction l with
    | nil => intro f hf; simpa using hf
    | cons op rest ih =>
        intro f hf
        simp only [List.foldl_cons]
        apply ih
        cases op with
        | init e =>
            show (f.init e).citationRepo = none
            rw [factory_init_citation_field]
            exact hf
        | cleanup => exact hf
  have h := key ops Factory.start rfl
  unfold Factory.getCitationRepository
  rw [h]

/-- Same-engine is reflexive. -/
theorem sameEngine_refl (d : Db) (s : Sys) : sameEngine d s s := by
  cases d <;> rfl

/-- Same-engine is transitive. -/
theorem sameEngine_trans (d : Db) (s t u : Sys)
    (h1 : sameEngine d s t) (h2 : sameEngine d t u) : sameEngine d s u := by
  cases d <;> exact h1.trans h2

/-- A target-engine paper create never touches the other engine. -/
theorem dbPaperCreate_frame (fromDb toDb : Db) (h : fromDb ≠ toDb)
    (i : CreatePaperInput) (s s1 : Sys)
    (hc : dbPaperCreate toDb i s = .ok s1) : sameEngine fromDb s s1 := by
  cases fromDb <;> cases toDb <;> first
    | exact absurd rfl h
    | (unfold dbPaperCreate at hc
       first
         | (cases hm : MongoPaperRepository.create i s.mongo with
            | ok v =>
                obtain ⟨a, m⟩ := v
                rw [hm] at hc
                simp only [Except.ok.injEq] at hc
                subst hc
                rfl
            | error e => rw [hm] at hc; simp at hc)
         | (cases hp : PostgresPaperRepository.create i s.pg with
            | ok v =>
                obtain ⟨a, p⟩ := v
                rw [hp] at hc
                simp only [Except.ok.injEq] at hc
                subst hc
                rfl
            | error e => rw [hp] at hc; simp at hc))

/-- A target-engine note create never touches the other engine. -/
theorem dbNoteCreate_frame (fromDb toDb : Db) (h : fromDb ≠ toDb)
    (i : CreateNoteInput) (s s1 : Sys)
    (hc : dbNoteCreate toDb i s = .ok s1) : sameEngine fromDb s s1 := by
  cases fromDb <;> cases toDb <;> first
    | exact absurd rfl h
    | (unfold dbNoteCreate at hc
       first
         | (cases hm : MongoNoteRepository.create i s.mongo with
            | ok v =>
                obtain ⟨a, m⟩ := v
                rw [hm] at hc
                simp only [Except.ok.injEq] at hc
                subst hc
                rfl
            | error e => rw [hm] at hc; simp at hc)
         | (cases hp : PostgresNoteRepository.create i s.pg with
            | ok v =>
                obtain ⟨a, p⟩ := v
                rw [hp] at hc
                simp only [Except.ok.injEq] at hc
                subst hc
                rfl
            | error e => rw [hp] at hc; simp at hc))

/-- One paper-loop iteration of the migration leaves the source engine
untouched (the loop only reads and writes the target engine). -/
theorem migPaperStep_frame (fromDb toDb : Db) (h : fromDb ≠ toDb)
    (acc : Nat × Nat × Sys) (p : Paper) :
    sameEngine fromDb acc.2.2 (migPaperStep toDb acc p).2.2 := by
  obtain ⟨mig, rest⟩ := acc
  obtain ⟨skip, s⟩ := rest
  unfold migPaperStep
  dsimp only
  cases hf : migFindExistingPaper toDb p s with
  | some q => exact sameEngine_refl fromDb s
  | none =>
      dsimp only
      cases hc : dbPaperCreate toDb (migPaperInput p) s with
      | ok s1 => exact dbPaperCreate_frame fromDb toDb h (migPaperInput p) s s1 hc
      | error e => exact sameEngine_refl fromDb s

/-- One note-loop iteration of the migration leaves the source engine
untouched. -/
theorem migNoteStep_frame (fromDb toDb : Db) (h : fromDb ≠ toDb)
    (acc : Nat × Nat × Sys) (n : Note) :
    sameEngine fromDb acc.2.2 (migNoteStep toDb acc n).2.2 := by
  obtain ⟨mig, rest⟩ := acc
  obtain ⟨skip, s⟩ := rest
  unfold migNoteStep
  dsimp only
  cases hf : migFindSimilarNote toDb n s with
  | some q => exact sameEngine_refl fromDb s
  | none =>
      dsimp only
      cases hc : dbNoteCreate toDb (migNoteInput n) s with
      | ok s1 => exact dbNoteCreate_frame fromDb toDb h (migNoteInput n) s s1 hc
      | error e => exact sameEngine_refl fromDb s

/-- The whole paper loop leaves the source engine untouched. -/
theorem migPaperLoop_frame (fromDb toDb : Db) (h : fromDb ≠ toDb)
    (l : List Paper) : ∀ acc : Nat × Nat × Sys,
    sameEngine fromDb acc.2.2 ((l.foldl (migPaperStep toDb) acc)).2.2 := by
  induction l with
  | nil => intro acc; exact sameEngine_refl fromDb acc.2.2
  | cons p ps ih =>
      intro acc
      simp only [List.foldl_cons]
      exact sameEngine_trans fromDb acc.2.2 (migPaperStep toDb acc p).2.2 _
        (migPaperStep_frame fromDb toDb h acc p) (ih (migPaperStep toDb acc p))

/-- The whole note loop leaves the source engine untouched. -/
theorem migNoteLoop_frame (fromDb toDb : Db) (h : fromDb ≠ toDb)
    (l : List Note) : ∀ acc : Nat × Nat × Sys,
    sameEngine fromDb acc.2.2 ((l.foldl (migNoteStep toDb) acc)).2.2 := by
  induction l with
  | nil => intro acc; exact sameEngine_refl fromDb acc.2.2
  | cons n ns ih =>
      intro acc
      simp only [List.foldl_cons]
      exact sameEngine_trans fromDb acc.2.2 (migNoteStep toDb acc n).2.2 _
        (migNoteStep_frame fromDb toDb h acc n) (ih (migNoteStep toDb acc n))

/-- C1: migration deletion gating. The deletion branch runs exactly when the
processed paper count (migrated plus skipped) equals the source paper count
AND the processed note count equals the source note count; and whenever the
deletion branch does not run, the source engine state is exactly what it was
before the migration and the result reports an incomplete (partial)
migration. -/
theorem migration_deletion_gating (fromDb toDb : Db) (h : fromDb ≠ toDb)
    (s : Sys) :
    ((migrate fromDb toDb s).1.deleted = true ↔
      ((migrate fromDb toDb s).1.migratedPapers +
          (migrate fromDb toDb s).1.skippedPapers
            = (migrate fromDb toDb s).1.srcPapers ∧
       (migrate fromDb toDb s).1.migratedNotes +
          (migrate fromDb toDb s).1.skippedNotes
            = (migrate fromDb toDb s).1.srcNotes)) ∧
    ((migrate fromDb toDb s).1.deleted = false →
      sameEngine fromDb s (migrate fromDb toDb s).2 ∧
      (migrate fromDb toDb s).1.complete = false) := by
  unfold migrate
  dsimp only
  constructor
  · simp [Bool.and_eq_true, beq_iff_eq]
  · intro hdel
    rw [hdel]
    simp only [Bool.false_eq_true, if_false]
    refine ⟨?_, by trivial⟩
    have h1 := migPaperLoop_frame fromDb toDb h (dbPapersAll fromDb s) (0, 0, s)
    have h2 := migNoteLoop_frame fromDb toDb h (dbNotesAll fromDb s)
      (0, 0, ((dbPapersAll fromDb s).foldl (migPaperStep toDb) (0, 0, s)).2.2)
    exact sameEngine_trans fromDb s _ _ h1 h2

/-- C1 witness fixture: a document-engine source holding one standalone note
(which the relational target cannot accept), so the run is partial. -/
def c1Mongo : MongoState :=
  match MongoNoteRepository.create
      { paperId := none, content := "standalone", tags := [], annots := [] }
      MongoState.empty with
  | .ok (_, m) => m
  | .error _ => MongoState.empty

/-- C1 witness fixture: combined state. -/
def c1Sys : Sys := { mongo := c1Mongo, pg := PgState.empty }

/-- C1 witness: the gating theorem applied at a concrete migration run. -/
theorem migration_deletion_gating_witness :
    Db.mongodb ≠ Db.postgres ∧
    (((migrate .mongodb .postgres c1Sys).1.deleted = true ↔
        ((migrate .mongodb .postgres c1Sys).1.migratedPapers +
            (migrate .mongodb .postgres c1Sys).1.skippedPapers
              = (migrate .mongodb .postgres c1Sys).1.srcPapers ∧
          (migrate .mongodb .postgres c1Sys).1.migratedNotes +
            (migrate .mongodb .postgres c1Sys).1.skippedNotes
              = (migrate .mongodb .postgres c1Sys).1.srcNotes)) ∧
      ((migrate .mongodb .postgres c1Sys).1.deleted = false →
        sameEngine .mongodb c1Sys (migrate .mongodb .postgres c1Sys).2 ∧
        (migrate .mongodb .postgres c1Sys).1.complete = false)) :=
  ⟨by decide, migration_deletion_gating .mongodb .postgres (by decide) c1Sys⟩

/-- The author find-or-create loop never touches the papers table. -/
theorem pgLinkAuthors_papers (pid op : String) :
    ∀ (as : List Author) (i : Nat) (linked : List String) (s t : PgState),
      pgLinkAuthors pid op as i linked s = .ok t → t.papers = s.papers := by
  intro as
  induction as with
  | nil =>
      intro i linked s t h
      unfold pgLinkAuthors at h
      simp only [Except.ok.injEq] at h
      rw [← h]
  | cons a rest ih =>
      intro i linked s t h
      unfold pgLinkAuthors at h
      dsimp only at h
      cases hf : s.authors.find? (fun r =>
          r.name == a.name && r.email == strOrNone a.email) with
      | some r =>
          rw [hf] at h
          dsimp only at h
          by_cases hc : linked.contains r.id = true
          · rw [hc] at h; simp at h
          · rw [Bool.not_eq_true] at hc
            rw [hc] at h
            simp only [Bool.false_eq_true, if_false] at h
            have hx := ih _ _ _ _ h
            exact hx
      | none =>
          rw [hf] at h
          dsimp only at h
          by_cases hc : linked.contains (pId s.nextId) = true
          · rw [hc] at h; simp at h
          · rw [Bool.not_eq_true] at hc
            rw [hc] at h
            simp only [Bool.false_eq_true, if_false] at h
            have hx := ih _ _ _ _ h
            exact hx

/-- Head-of-list lookup by identity. -/
theorem find?_paper_id_head (rid : String) (r : PgPaperRow) (hr : r.id = rid)
    (l : List PgPaperRow) :
    List.find? (fun q => q.id == rid) (r :: l) = some r := by
  simp [List.find?, hr]

/-- C6 (amended): for every pair of paper-create calls carrying the same
non-EMPTY DOI, the second create fails with `DuplicateEntityError` in both
variants, and the first paper is unaffected: it stays retrievable, the store
grew only by the first call, and the failed second call performs no write
(an error result leaves the caller with its pre-call state). The
empty-string DOI is the carve-out forced by the counterexample: there the
relational variant still fails and preserves the first paper, but with a
plain wrapped error instead of `DuplicateEntityError`. -/
theorem duplicate_doi_rejected
    (d : String) (hd : d.isEmpty = false)
    (i1 i2 : CreatePaperInput) (h1 : i1.doi = some d) (h2 : i2.doi = some d)
    (ms ms1 : MongoState) (m1 : Paper)
    (hm : MongoPaperRepository.create i1 ms = .ok (m1, ms1))
    (ps ps1 : PgState) (p1 : Paper)
    (hp : PostgresPaperRepository.create i1 ps = .ok (p1, ps1)) :
    MongoPaperRepository.create i2 ms1
        = .error (.duplicateEntity "Paper" "doi" d) ∧
    MongoPaperRepository.findById m1.id ms1 = some m1 ∧
    MongoPaperRepository.count ms1 = MongoPaperRepository.count ms + 1 ∧
    PostgresPaperRepository.create i2 ps1
        = .error (.duplicateEntity "Paper" "doi" d) ∧
    PostgresPaperRepository.findById p1.id ps1 = some p1 ∧
    PostgresPaperRepository.count ps1 = PostgresPaperRepository.count ps + 1 := by
  have hjt : jsTruthy (some d) = true := by simp [jsTruthy, hd]
  have hjd : jsOrDefault (some d) "unknown" = d := by simp [jsOrDefault, hd]
  -- invert the first document-engine create
  unfold MongoPaperRepository.create at hm
  rw [h1] at hm
  dsimp only at hm
  by_cases hdupm : ms.papers.any (fun p => p.doi == some d) = true
  · rw [hdupm] at hm; simp at hm
  · rw [Bool.not_eq_true] at hdupm
    rw [hdupm] at hm
    simp only [Bool.false_eq_true, if_false, Except.ok.injEq, Prod.mk.injEq] at hm
    obtain ⟨hm1, hms1⟩ := hm
    -- invert the first relational create
    unfold PostgresPaperRepository.create at hp
    rw [h1, hjt] at hp
    dsimp only at hp
    by_cases hdupp : ps.papers.any (fun r => r.doi == some d) = true
    · rw [hdupp] at hp; simp at hp
    · rw [Bool.not_eq_true] at hdupp
      rw [hdupp] at hp
      simp only [Bool.and_false, Bool.true_and, Bool.false_eq_true, if_false] at hp
      cases hl : pgLinkAuthors (pId ps.nextId) "create" i1.authors 0 []
          { ps with
            papers := { id := pId ps.nextId, title := i1.title
                        abstract := i1.abstract, keywords := i1.keywords
                        publicationDate := i1.publicationDate
                        journal := i1.journal, conference := i1.conference
                        doi := some d, url := i1.url, filePath := i1.filePath
                        metadata := i1.metadata, createdAt := ps.clock
                        updatedAt := ps.clock } :: ps.papers
            nextId := ps.nextId + 1
            clock := ps.clock + 1 } with
      | error e =>
          rw [hl] at hp
          simp at hp
      | ok s2 =>
          rw [hl] at hp
          dsimp only at hp
          have hpap := pgLinkAuthors_papers (pId ps.nextId) "create" i1.authors
            0 [] _ s2 hl
          dsimp only at hpap
          rw [hpap, find?_paper_id_head (pId ps.nextId) _ rfl] at hp
          dsimp only at hp
          simp only [Except.ok.injEq, Prod.mk.injEq] at hp
          obtain ⟨hp1, hps1⟩ := hp
          refine ⟨?_, ?_, ?_, ?_, ?_, ?_⟩
          · -- second document create is a duplicate
            unfold MongoPaperRepository.create
            rw [h2, ← hms1]
            simp [List.any_cons, hjd]
          · -- first document paper retrievable
            unfold MongoPaperRepository.findById
            rw [← hms1, ← hm1]
            simp [List.find?]
          · -- document count grew by one
            unfold MongoPaperRepository.count
            rw [← hms1]
            rfl
          · -- second relational create is a duplicate
            unfold PostgresPaperRepository.create
            rw [h2, hjt, ← hps1, hpap]
            simp [List.any_cons]
          · -- first relational paper retrievable
            unfold PostgresPaperRepository.findById
            rw [← hps1, ← hp1, hpap]
            simp [List.find?, pgMapToPaper]
          · -- relational count grew by one
            unfold PostgresPaperRepository.count
            rw [← hps1, hpap]
            rfl

/-- Is the result a `DuplicateEntityError`? -/
def isDuplicateErr {α : Type} : Except RepoErr α → Bool
  | .error (.duplicateEntity _ _ _) => true
  | _ => false

/-- A placeholder paper value for impossible fixture branches. -/
def dummyPaper : Paper :=
  { id := "", title := "", authors := [], abstract := "", keywords := []
    publicationDate := 0, journal := none, conference := none, doi := none
    url := none, filePath := none, cites := [], metadata := []
    createdAt := 0, updatedAt := 0 }

/-- C6 counterexample fixture: an empty-string DOI create input. -/
def c6EmptyDoiInput : CreatePaperInput := { mkPlainPaper "T" with doi := some "" }

/-- C6 counterexample fixture: relational store after the first empty-DOI
create. -/
def c6EmptyDoiMid : PgState :=
  match PostgresPaperRepository.create c6EmptyDoiInput PgState.empty with
  | .ok (_, p) => p
  | .error _ => PgState.empty

/-- C6 counterexample: two creates with the same non-null DOI, namely the
empty string. In the relational variant the truthiness pre-check skips the
DOI lookup, so the second create fails inside the transaction with a plain
wrapped storage error — NOT with `DuplicateEntityError` as the claim states
for every non-null DOI. -/
theorem duplicate_doi_empty_string_generic_error :
    isOkB (PostgresPaperRepository.create c6EmptyDoiInput PgState.empty) = true ∧
    PostgresPaperRepository.create { mkPlainPaper "U" with doi := some "" }
        c6EmptyDoiMid
      = .error (.jsError "Failed to create paper: unique constraint violation on doi") ∧
    isDuplicateErr (PostgresPaperRepository.create
        { mkPlainPaper "U" with doi := some "" } c6EmptyDoiMid)
      = false :=
  ⟨rfl, rfl, rfl⟩

/-- C6 witness fixture: a create input with a non-empty DOI. -/
def c6WitInput : CreatePaperInput :=
  { mkPlainPaper "W" with doi := some "10.1000/w" }

/-- C6 witness fixture: the paper the document engine creates. -/
def c6WitMongoPaper : Paper :=
  match MongoPaperRepository.create c6WitInput MongoState.empty with
  | .ok (p, _) => p
  | .error _ => dummyPaper

/-- C6 witness fixture: the document store after that create. -/
def c6WitMongo : MongoState :=
  match MongoPaperRepository.create c6WitInput MongoState.empty with
  | .ok (_, m) => m
  | .error _ => MongoState.empty

/-- C6 witness fixture: the paper the relational engine creates. -/
def c6WitPgPaper : Paper :=
  match PostgresPaperRepository.create c6WitInput PgState.empty with
  | .ok (p, _) => p
  | .error _ => dummyPaper

/-- C6 witness fixture: the relational store after that create. -/
def c6WitPg : PgState :=
  match PostgresPaperRepository.create c6WitInput PgState.empty with
  | .ok (_, p) => p
  | .error _ => PgState.empty

/-- C6 witness: the amended duplicate-DOI theorem applied at a concrete
non-empty DOI in both variants. -/
theorem duplicate_doi_rejected_witness :
    ("10.1000/w").isEmpty = false ∧
    (MongoPaperRepository.create c6WitInput c6WitMongo
        = .error (.duplicateEntity "Paper" "doi" "10.1000/w") ∧
     MongoPaperRepository.findById c6WitMongoPaper.id c6WitMongo
        = some c6WitMongoPaper ∧
     MongoPaperRepository.count c6WitMongo
        = MongoPaperRepository.count MongoState.empty + 1 ∧
     PostgresPaperRepository.create c6WitInput c6WitPg
        = .error (.duplicateEntity "Paper" "doi" "10.1000/w") ∧
     PostgresPaperRepository.findById c6WitPgPaper.id c6WitPg
        = some c6WitPgPaper ∧
     PostgresPaperRepository.count c6WitPg
        = PostgresPaperRepository.count PgState.empty + 1) :=
  ⟨rfl,
   duplicate_doi_rejected "10.1000/w" rfl c6WitInput c6WitInput rfl rfl
     MongoState.empty c6WitMongo c6WitMongoPaper rfl
     PgState.empty c6WitPg c6WitPgPaper rfl⟩

/-- C7 fixture: a sub-record input. -/
def c7Ann : AnnIn :=
  { atype := .highlight, pageNumber := 1
    pos := { x := 0, y := 0, w := none, h := none }
    content := "hl", color := none }

/-- C7 fixture: a document store holding one note with one sub-record. -/
def c7Mongo : MongoState :=
  match MongoNoteRepository.create
      { paperId := none, content := "note", tags := [], annots := [] }
      MongoState.empty with
  | .ok (n, m) =>
      (match MongoNoteRepository.addAnnot n.id c7Ann m with
       | .ok (_, m2) => m2
       | .error _ => m)
  | .error _ => MongoState.empty

/-- C7 counterexample: the note exists and carries one sub-record, the named
id "zzz" is on no sub-record of the note, and yet `removeAnnotation`
SUCCEEDS, returning the note with its single sub-record untouched — it does
not fail with an entity-not-found signal as the claim requires. -/
theorem remove_missing_annot_silently_succeeds :
    (MongoNoteRepository.findById "m0" c7Mongo).map
        (fun n => n.annots.length) = some 1 ∧
    (MongoNoteRepository.findById "m0" c7Mongo).map
        (fun n => n.annots.any (fun a => a.id == "zzz")) = some false ∧
    isOkB (MongoNoteRepository.removeAnnot "m0" "zzz" c7Mongo) = true ∧
    (match MongoNoteRepository.removeAnnot "m0" "zzz" c7Mongo with
     | .ok (n, _) => n.annots.length
     | .error _ => 0) = 1 :=
  ⟨rfl, rfl, rfl, rfl⟩

/-- C7 (amended): characterization of the three operations. In the document
variant: `addAnnotation` fails with entity-not-found exactly on a missing
note and otherwise returns the whole note with the fresh sub-record
appended; `updateAnnotation` fails with distinct entity-not-found signals on
a missing note or a missing sub-record and otherwise returns the whole
patched note; `removeAnnotation` fails only on a missing note — a missing
sub-record id is silently ignored and the whole (then unchanged) note
returned. In the relational variant: a missing note yields entity-not-found
for `addAnnotation` and `removeAnnotation`, and a globally missing
sub-record yields entity-not-found for `updateAnnotation`; but a missing
sub-record in `removeAnnotation` surfaces as a generic repository failure,
and `updateAnnotation` resolves the sub-record without checking it belongs
to the named note, succeeding even when it lives on a different note. -/
theorem annot_ops_characterization :
    (∀ (s : MongoState) (nid : String) (a : AnnIn),
      MongoNoteRepository.findById nid s = none →
      MongoNoteRepository.addAnnot nid a s
        = .error (.entityNotFound "Note" nid)) ∧
    (∀ (s : MongoState) (nid : String) (n : Note) (a : AnnIn),
      MongoNoteRepository.findById nid s = some n →
      ∃ s1, MongoNoteRepository.addAnnot nid a s
        = .ok ({ n with
            annots := n.annots ++
              [{ id := mId s.nextId, atype := a.atype
                 pageNumber := a.pageNumber, pos := a.pos
                 content := a.content, color := a.color }]
            updatedAt := s.clock }, s1)) ∧
    (∀ (s : MongoState) (nid aid : String),
      MongoNoteRepository.findById nid s = none →
      MongoNoteRepository.removeAnnot nid aid s
        = .error (.entityNotFound "Note" nid)) ∧
    (∀ (s : MongoState) (nid aid : String) (n : Note),
      MongoNoteRepository.findById nid s = some n →
      ∃ s1, MongoNoteRepository.removeAnnot nid aid s
        = .ok ({ n with annots := n.annots.filter (fun a => a.id != aid)
                        updatedAt := s.clock }, s1)) ∧
    (∀ (s : MongoState) (nid aid : String) (p : AnnPatch),
      MongoNoteRepository.findById nid s = none →
      MongoNoteRepository.updateAnnot nid aid p s
        = .error (.entityNotFound "Note" nid)) ∧
    (∀ (s : MongoState) (nid aid : String) (p : AnnPatch) (n : Note),
      MongoNoteRepository.findById nid s = some n →
      n.annots.any (fun a => a.id == aid) = false →
      MongoNoteRepository.updateAnnot nid aid p s
        = .error (.entityNotFound "Annotation" aid)) ∧
    (∀ (s : MongoState) (nid aid : String) (p : AnnPatch) (n : Note),
      MongoNoteRepository.findById nid s = some n →
      n.annots.any (fun a => a.id == aid) = true →
      ∃ s1, MongoNoteRepository.updateAnnot nid aid p s
        = .ok ({ n with
            annots := n.annots.map (fun a =>
              if a.id == aid then a.patch p else a)
            updatedAt := s.clock }, s1)) ∧
    (∀ (s : PgState) (nid : String) (a : AnnIn),
      s.notes.find? (fun r => r.id == nid) = none →
      PostgresNoteRepository.addAnnot nid a s
        = .error (.entityNotFound "Note" nid)) ∧
    (∀ (s : PgState) (nid aid : String),
      s.notes.find? (fun r => r.id == nid) = none →
      PostgresNoteRepository.removeAnnot nid aid s
        = .error (.entityNotFound "Note" nid)) ∧
    (∀ (s : PgState) (nid aid : String) (row : PgNoteRow),
      s.notes.find? (fun r => r.id == nid) = some row →
      s.annRows.any (fun a => a.id == aid && a.noteId == nid) = false →
      PostgresNoteRepository.removeAnnot nid aid s
        = .error (.repositoryFailure
            "Failed to remove annotation: record to delete does not exist"
            "UPDATE_ERROR")) ∧
    (∀ (s : PgState) (nid aid : String) (p : AnnPatch),
      s.annRows.find? (fun a => a.id == aid) = none →
      PostgresNoteRepository.updateAnnot nid aid p s
        = .error (.entityNotFound "Annotation" aid)) ∧
    (∀ (s : PgState) (nid aid : String) (p : AnnPatch) (ar : PgAnnRow)
        (row : PgNoteRow),
      s.annRows.find? (fun a => a.id == aid) = some ar →
      s.notes.find? (fun r => r.id == nid) = some row →
      isOkB (PostgresNoteRepository.updateAnnot nid aid p s) = true) := by
  refine ⟨?_, ?_, ?_, ?_, ?_, ?_, ?_, ?_, ?_, ?_, ?_, ?_⟩
  · intro s nid a h
    unfold MongoNoteRepository.findById at h
    unfold MongoNoteRepository.addAnnot
    rw [h]
  · intro s nid n a h
    unfold MongoNoteRepository.findById at h
    unfold MongoNoteRepository.addAnnot
    rw [h]
    exact ⟨_, rfl⟩
  · intro s nid aid h
    unfold MongoNoteRepository.findById at h
    unfold MongoNoteRepository.removeAnnot
    rw [h]
  · intro s nid aid n h
    unfold MongoNoteRepository.findById at h
    unfold MongoNoteRepository.removeAnnot
    rw [h]
    exact ⟨_, rfl⟩
  · intro s nid aid p h
    unfold MongoNoteRepository.findById at h
    unfold MongoNoteRepository.updateAnnot
    rw [h]
  · intro s nid aid p n h hany
    unfold MongoNoteRepository.findById at h
    unfold MongoNoteRepository.updateAnnot
    rw [h]
    dsimp only
    rw [hany]
    rfl
  · intro s nid aid p n h hany
    unfold MongoNoteRepository.findById at h
    unfold MongoNoteRepository.updateAnnot
    rw [h]
    dsimp only
    rw [hany]
    exact ⟨_, rfl⟩
  · intro s nid a h
    unfold PostgresNoteRepository.addAnnot
    rw [h]
  · intro s nid aid h
    unfold PostgresNoteRepository.removeAnnot
    rw [h]
  · intro s nid aid row h hany
    unfold PostgresNoteRepository.removeAnnot
    rw [h]
    dsimp only
    rw [hany]
    rfl
  · intro s nid aid p h
    unfold PostgresNoteRepository.updateAnnot
    rw [h]
  · intro s nid aid p ar row hann hrow
    unfold PostgresNoteRepository.updateAnnot
    rw [hann]
    dsimp only
    rw [hrow]
    rfl

/-- C7 witness: the characterization applied to concrete stores — a missing
note makes the document-variant addAnnotation fail with entity-not-found. -/
theorem annot_ops_characterization_witness :
    MongoNoteRepository.findById "absent" MongoState.empty = none ∧
    MongoNoteRepository.addAnnot "absent" c7Ann MongoState.empty
      = .error (.entityNotFound "Note" "absent") :=
  ⟨rfl, annot_ops_characterization.1 MongoState.empty "absent" c7Ann rfl⟩

/-- C8 fixture: relational store with one paper and one note that carries a
single sub-record. -/
def c8Pg : PgState :=
  match PostgresPaperRepository.create (mkPlainPaper "P") PgState.empty with
  | .ok (_, p) =>
      (match PostgresNoteRepository.create
          { paperId := some "p0", content := "note", tags := ["t"]
            annots := [c7Ann] } p with
       | .ok (_, p2) => p2
       | .error _ => p)
  | .error _ => PgState.empty

/-- C8 fixture: an update that supplies only the content. -/
def c8Upd : UpdateNoteInput :=
  { content := some "new", tags := none, annots := none }

/-- C8 counterexample: the stored note has one sub-record; an update that
leaves the sub-record list unspecified (supplying only content) returns and
stores the note with ZERO sub-records — the unspecified field was silently
cleared, contradicting the claim. -/
theorem pg_update_clears_annots :
    (PostgresNoteRepository.findById "p1" c8Pg).map
        (fun n => n.annots.length) = some 1 ∧
    (match PostgresNoteRepository.update "p1" c8Upd c8Pg with
     | .ok (some n, _) => n.annots.length
     | _ => 99) = 0 ∧
    (match PostgresNoteRepository.update "p1" c8Upd c8Pg with
     | .ok (_, s) => s.annRows.length
     | _ => 99) = 0 :=
  ⟨rfl, rfl, rfl⟩

/-- Inserting an empty sub-record batch is a no-op. -/
theorem pgInsertAnns_nil (nid : String) (s : PgState) :
    pgInsertAnns nid [] s = s := rfl

/-- Rows kept by a noteId-exclusion filter never pass the matching filter. -/
theorem filter_noteId_clash (nid : String) (l : List PgAnnRow) :
    (l.filter (fun a => a.noteId != nid)).filter
      (fun a => a.noteId == nid) = [] := by
  induction l with
  | nil => rfl
  | cons a rest ih =>
      by_cases hx : (a.noteId == nid) = true
      · have h1 : (a.noteId != nid) = false := by simp [bne, hx]
        simp only [List.filter_cons, h1, Bool.false_eq_true, if_false]
        exact ih
      · have hxf : (a.noteId == nid) = false := by
          cases hbb : (a.noteId == nid) with
          | true => exact absurd hbb hx
          | false => rfl
        have h1 : (a.noteId != nid) = true := by simp [bne, hxf]
        simp only [List.filter_cons, h1, if_true, hxf, Bool.false_eq_true,
          if_false]
        exact ih

/-- C8 (amended): note update is a diff-merge for content and tags in both
variants (an unspecified field keeps its stored value), and the document
variant never touches the embedded sub-records through `update`; but the
relational variant ALWAYS rewrites the sub-record rows, so an update that
leaves them unspecified clears every stored sub-record of the note. -/
theorem note_update_merge_behavior :
    (∀ (s : MongoState) (nid : String) (n : Note) (u : UpdateNoteInput),
      MongoNoteRepository.findById nid s = some n →
      ∃ s1, MongoNoteRepository.update nid u s
        = .ok (some { n with content := u.content.getD n.content
                             tags := u.tags.getD n.tags
                             updatedAt := s.clock }, s1)) ∧
    (∀ (s : PgState) (nid : String) (row : PgNoteRow) (u : UpdateNoteInput),
      s.notes.find? (fun r => r.id == nid) = some row →
      ∃ s1 n1, PostgresNoteRepository.update nid u s = .ok (some n1, s1) ∧
        n1.content = u.content.getD row.content ∧
        n1.tags = u.tags.getD row.tags ∧
        (u.annots = none → n1.annots = [])) := by
  constructor
  · intro s nid n u h
    unfold MongoNoteRepository.findById at h
    unfold MongoNoteRepository.update
    rw [h]
    exact ⟨_, rfl⟩
  · intro s nid row u h
    have hrid : row.id = nid := by
      have hpred := List.find?_some h
      simpa [beq_iff_eq] using hpred
    unfold PostgresNoteRepository.update
    rw [h]
    dsimp only
    refine ⟨_, _, rfl, rfl, rfl, ?_⟩
    intro hu
    rw [hu]
    unfold pgMapToNote
    dsimp only
    rw [hrid]
    simp only [Option.getD_none, pgInsertAnns_nil]
    rw [filter_noteId_clash]
    rfl

/-- A placeholder note value for impossible fixture branches. -/
def dummyNote : Note :=
  { id := "", paperId := none, content := "", tags := [], annots := []
    createdAt := 0, updatedAt := 0 }

/-- C8 witness fixture: a document store with one note. -/
def c8WitMongo : MongoState :=
  match MongoNoteRepository.create
      { paperId := none, content := "w", tags := ["a"], annots := [] }
      MongoState.empty with
  | .ok (_, m) => m
  | .error _ => MongoState.empty

/-- C8 witness fixture: the stored note. -/
def c8WitNote : Note :=
  match MongoNoteRepository.findById "m0" c8WitMongo with
  | some n => n
  | none => dummyNote

/-- C8 witness: the merge theorem applied at a concrete document store. -/
theorem note_update_merge_behavior_witness :
    MongoNoteRepository.findById "m0" c8WitMongo = some c8WitNote ∧
    (∃ s1, MongoNoteRepository.update "m0" c8Upd c8WitMongo
      = .ok (some { c8WitNote with
          content := c8Upd.content.getD c8WitNote.content
          tags := c8Upd.tags.getD c8WitNote.tags
          updatedAt := c8WitMongo.clock }, s1)) :=
  ⟨rfl, note_update_merge_behavior.1 c8WitMongo "m0" c8WitNote c8Upd rfl⟩

/-- C9 fixture: relational store with two papers (created ids p0 and p1). -/
def c9Pg : PgState :=
  match PostgresPaperRepository.create (mkPlainPaper "A") PgState.empty with
  | .ok (_, p) =>
      (match PostgresPaperRepository.create (mkPlainPaper "B") p with
       | .ok (_, p2) => p2
       | .error _ => p)
  | .error _ => PgState.empty

/-- C9 fixture: that store after one citation from p0 to p1. -/
def c9PgMid : PgState :=
  match PostgresPaperRepository.addCitation "p0" "p1" c9Pg with
  | .ok p => p
  | .error _ => c9Pg

/-- C9 counterexample: in the relational variant the second identical
addCitation call DOES fail, but with a plain wrapped error — not with the
`DuplicateEntityError` the claim requires — while the reversed pair still
succeeds. -/
theorem pg_duplicate_citation_generic_error :
    isOkB (PostgresPaperRepository.addCitation "p0" "p1" c9Pg) = true ∧
    PostgresPaperRepository.addCitation "p0" "p1" c9PgMid
      = .error (.jsError "Failed to add citation: unique constraint violation") ∧
    isDuplicateErr (PostgresPaperRepository.addCitation "p0" "p1" c9PgMid)
      = false ∧
    isOkB (PostgresPaperRepository.addCitation "p1" "p0" c9PgMid) = true :=
  ⟨rfl, rfl, rfl, rfl⟩

/-- C9 (amended): the uniqueness constraint is over the ordered
(source, target) pair in both variants: after addCitation(A, B), the second
addCitation(A, B) fails — with `DuplicateEntityError` in the document
variant but with a generic wrapped error (never `DuplicateEntityError`) in
the relational variant — while addCitation(B, A) succeeds in both. -/
theorem citation_pair_uniqueness
    (a b : String) (hab : (a == b) = false)
    (ms : MongoState)
    (hm1 : ms.cites.any (fun c =>
      c.sourcePaperId == a && c.targetPaperId == b) = false)
    (hm2 : ms.cites.any (fun c =>
      c.sourcePaperId == b && c.targetPaperId == a) = false)
    (ps : PgState)
    (hpa : ps.papers.any (fun r => r.id == a) = true)
    (hpb : ps.papers.any (fun r => r.id == b) = true)
    (hp1 : ps.cites.any (fun c =>
      c.sourcePaperId == a && c.targetPaperId == b) = false)
    (hp2 : ps.cites.any (fun c =>
      c.sourcePaperId == b && c.targetPaperId == a) = false) :
    (∃ ms1, MongoPaperRepository.addCitation a b ms = .ok ms1 ∧
      MongoPaperRepository.addCitation a b ms1
        = .error (.duplicateEntity "Citation" "paper pair" (a ++ "-" ++ b)) ∧
      isOkB (MongoPaperRepository.addCitation b a ms1) = true) ∧
    (∃ ps1, PostgresPaperRepository.addCitation a b ps = .ok ps1 ∧
      isJsError (PostgresPaperRepository.addCitation a b ps1) = true ∧
      isDuplicateErr (PostgresPaperRepository.addCitation a b ps1) = false ∧
      isOkB (PostgresPaperRepository.addCitation b a ps1) = true) := by
  constructor
  · refine ⟨{ ms with
        cites := { id := mId ms.nextId, sourcePaperId := a, targetPaperId := b
                   context := "", ctype := "DIRECT"
                   createdAt := ms.clock } :: ms.cites
        nextId := ms.nextId + 1, clock := ms.clock + 1 }, ?_, ?_, ?_⟩
    · unfold MongoPaperRepository.addCitation
      rw [hm1]
      rfl
    · unfold MongoPaperRepository.addCitation
      dsimp only
      simp [List.any_cons]
    · unfold MongoPaperRepository.addCitation
      dsimp only
      simp [List.any_cons, hab, hm2, isOkB]
  · refine ⟨{ ps with
        cites := { id := pId ps.nextId, sourcePaperId := a, targetPaperId := b
                   context := "", ctype := "DIRECT", pageNumber := none
                   createdAt := ps.clock } :: ps.cites
        nextId := ps.nextId + 1, clock := ps.clock + 1 }, ?_, ?_, ?_, ?_⟩
    · unfold PostgresPaperRepository.addCitation
      rw [hpa, hpb, hp1]
      rfl
    · unfold PostgresPaperRepository.addCitation
      dsimp only
      rw [hpa, hpb]
      simp [List.any_cons, isJsError]
    · unfold PostgresPaperRepository.addCitation
      dsimp only
      rw [hpa, hpb]
      simp [List.any_cons, isDuplicateErr]
    · unfold PostgresPaperRepository.addCitation
      dsimp only
      rw [hpa, hpb]
      simp [List.any_cons, hab, hp2, isOkB]

/-- C9 witness: the ordered-pair uniqueness theorem applied to the empty
document store and the concrete two-paper relational store. -/
theorem citation_pair_uniqueness_witness :
    (("p0" : String) == "p1") = false ∧
    ((∃ ms1, MongoPaperRepository.addCitation "p0" "p1" MongoState.empty
        = .ok ms1 ∧
      MongoPaperRepository.addCitation "p0" "p1" ms1
        = .error (.duplicateEntity "Citation" "paper pair" ("p0" ++ "-" ++ "p1")) ∧
      isOkB (MongoPaperRepository.addCitation "p1" "p0" ms1) = true) ∧
     (∃ ps1, PostgresPaperRepository.addCitation "p0" "p1" c9Pg = .ok ps1 ∧
      isJsError (PostgresPaperRepository.addCitation "p0" "p1" ps1) = true ∧
      isDuplicateErr (PostgresPaperRepository.addCitation "p0" "p1" ps1)
        = false ∧
      isOkB (PostgresPaperRepository.addCitation "p1" "p0" ps1) = true)) :=
  ⟨rfl, citation_pair_uniqueness "p0" "p1" rfl MongoState.empty rfl rfl
    c9Pg rfl rfl rfl rfl⟩
